import Mathlib

/-!
Shallow embedding of the hydrogen-web cross-signing trust engine
(src/matrix/verification/CrossSigning.ts) and of the resilient session
store (src/matrix/storage/idb/stores/SessionStore.ts), together with
theorems checking the specified behaviour against these definitions.

JS strings are modelled as Lean strings; the string operations used by the
source (startsWith, substr, length, concatenation) are modelled on the
character-list representation so that they evaluate by kernel reduction.
JS objects used as string maps are modelled as association lists in
object-key order.
-/

/-- Character-list model of JS String.prototype.startsWith. -/
def jsStartsWith (s pat : String) : Bool := List.isPrefixOf pat.data s.data

/-- Character-list model of JS String.prototype.substr(n) (drop the first n
characters). -/
def jsSubstrFrom (s : String) (n : Nat) : String := String.mk (s.data.drop n)

/-- Character count of a string, modelling the JS length property. -/
def jsLength (s : String) : Nat := s.data.length

/-- Association-list get, modelling JS object property lookup. -/
def assocGet {β : Type} (l : List (String × β)) (k : String) : Option β :=
  match l with
  | [] => none
  | (k2, v) :: rest => if k2 = k then some v else assocGet rest k

/-- Association-list upsert: replaces the value under an existing key in place,
otherwise appends the new entry. Models both IDBObjectStore.put and
DOM Storage.setItem. -/
def assocPut {β : Type} (l : List (String × β)) (k : String) (v : β) : List (String × β) :=
  match l with
  | [] => [(k, v)]
  | (k2, v2) :: rest => if k2 = k then (k, v) :: rest else (k2, v2) :: assocPut rest k v

/-- Association-list delete, modelling IDBObjectStore.delete and
DOM Storage.removeItem. -/
def assocRemove {β : Type} (l : List (String × β)) (k : String) : List (String × β) :=
  match l with
  | [] => []
  | (k2, v2) :: rest => if k2 = k then assocRemove rest k else (k2, v2) :: assocRemove rest k

/-- Usage tags of a cross-signing key (enum KeyUsage in CrossSigning.ts). -/
inductive KeyUsage where
  | Master
  | SelfSigning
  | UserSigning
deriving DecidableEq, Repr

/-- Tri-state signature verification outcome (enum SignatureVerification in
e2ee/common, consumed by CrossSigning.ts). -/
inductive SignatureVerification where
  | Valid
  | Invalid
  | NotSigned
deriving DecidableEq, Repr

/-- Trust verdict for a remote user (enum UserTrust in CrossSigning.ts). -/
inductive UserTrust where
  | Trusted
  | UserNotSigned
  | UserSignatureMismatch
  | UserDeviceNotSigned
  | UserDeviceSignatureMismatch
  | UserSetupError
  | OwnSetupError
deriving DecidableEq, Repr

/-- Outcome of verifying the own master key (enum MSKVerification in
CrossSigning.ts). -/
inductive MSKVerification where
  | NoPrivKey
  | NoPubKey
  | DerivedPubKeyMismatch
  | Valid
deriving DecidableEq, Repr

/-- Cross-signing key record in the server wire format (type CrossSigningKey in
CrossSigning.ts). -/
structure CrossSigningKey where
  user_id : String
  usage : List String
  keys : List (String × String)
  signatures : List (String × List (String × String))
deriving DecidableEq, Repr

/-- Device key bundle (type DeviceKey in e2ee/common as used by
CrossSigning.ts). -/
structure DeviceKey where
  user_id : String
  device_id : String
  keys : List (String × String)
  signatures : List (String × List (String × String))
deriving DecidableEq, Repr

/-- String form of each usage tag, the values of the KeyUsage enum. -/
def KeyUsage.toStr : KeyUsage → String
  | .Master => "master"
  | .SelfSigning => "self_signing"
  | .UserSigning => "user_signing"

/-- Embeds getKeyUsage of CrossSigning.ts: a usage array whose length is not
exactly one, or an unknown usage tag, yields absence. -/
def getKeyUsage (keyInfo : CrossSigningKey) : Option KeyUsage :=
  if keyInfo.usage.length ≠ 1 then none
  else
    match keyInfo.usage.head? with
    | none => none
    | some usage =>
      if usage = KeyUsage.Master.toStr then some KeyUsage.Master
      else if usage = KeyUsage.SelfSigning.toStr then some KeyUsage.SelfSigning
      else if usage = KeyUsage.UserSigning.toStr then some KeyUsage.UserSigning
      else none

/-- The algorithm marker prepended to ed25519 key ids (the constant derived
from the algorithm name in CrossSigning.ts). -/
def ed25519IdMarker : String := "ed25519:"

/-- Embeds getKeyEd25519Key of CrossSigning.ts: unless exactly one key id of
the keys object carries the ed25519 marker, absence is returned; otherwise the
public key stored under that id. -/
def getKeyEd25519Key (keyInfo : CrossSigningKey) : Option String :=
  let ed25519KeyIds :=
    (keyInfo.keys.map Prod.fst).filter (fun keyId => jsStartsWith keyId ed25519IdMarker)
  if ed25519KeyIds.length ≠ 1 then none
  else
    match ed25519KeyIds.head? with
    | none => none
    | some keyId => assocGet keyInfo.keys keyId

/-- Embeds getKeyUserId of CrossSigning.ts. -/
def getKeyUserId (keyInfo : CrossSigningKey) : Option String :=
  some keyInfo.user_id

/-- C8: for every CrossSigningKey whose usage array has length 0 or at least 2,
getKeyUsage returns absent; and for every CrossSigningKey whose keys object has
zero or at least two ed25519-marked ids, getKeyEd25519Key returns absent. -/
theorem malformed_key_extraction_absent (k : CrossSigningKey) :
    ((k.usage.length = 0 ∨ 2 ≤ k.usage.length) → getKeyUsage k = none)
    ∧ ((((k.keys.map Prod.fst).filter (fun keyId => jsStartsWith keyId ed25519IdMarker)).length = 0
        ∨ 2 ≤ ((k.keys.map Prod.fst).filter (fun keyId => jsStartsWith keyId ed25519IdMarker)).length)
       → getKeyEd25519Key k = none) := by
  constructor
  · intro h
    have hne : k.usage.length ≠ 1 := by rcases h with h | h <;> omega
    simp [getKeyUsage, hne]
  · intro h
    have hne :
        ((k.keys.map Prod.fst).filter (fun keyId => jsStartsWith keyId ed25519IdMarker)).length ≠ 1 := by
      rcases h with h | h <;> omega
    simp [getKeyEd25519Key, hne]

/-- Concrete malformed cross-signing key: two usage tags and two ed25519 ids. -/
def malformedKeyC8 : CrossSigningKey :=
  { user_id := "@alice:hs.example"
    usage := ["master", "self_signing"]
    keys := [("ed25519:a", "pkA"), ("ed25519:b", "pkB")]
    signatures := [] }

/-- Witness for C8 at a concrete malformed key. -/
theorem malformed_key_extraction_absent_witness :
    getKeyUsage malformedKeyC8 = none ∧ getKeyEd25519Key malformedKeyC8 = none :=
  ⟨(malformed_key_extraction_absent malformedKeyC8).1 (by decide),
   (malformed_key_extraction_absent malformedKeyC8).2 (by decide)⟩

/-- A value whose signatures can be verified: either a cross-signing key or a
device key (the union type accepted by hasValidSignatureFrom in
CrossSigning.ts). -/
inductive SignedKey where
  | cross (k : CrossSigningKey)
  | device (d : DeviceKey)
deriving DecidableEq, Repr

/-- Environment of the CrossSigning class: its external collaborators
(secret storage, device tracker, olm, network API) as oracle functions.
readSecret returns the already base64-decoded seed for
m.cross_signing.(usage); getCrossSigningKeyForUser takes the queried user id,
the usage and whether a network client was passed; verifyEd25519Signature
models the e2ee/common signature check (signer user id, signer public key,
signed value). -/
structure CrossSigningEnv where
  ownUserId : String
  deviceId : String
  readSecret : KeyUsage → Option (List Nat)
  deriveMasterPublicKey : List Nat → String
  getCrossSigningKeyForUser : String → KeyUsage → Bool → Option CrossSigningKey
  deviceForId : String → String → Option DeviceKey
  devicesForUsers : String → List DeviceKey
  verifyEd25519Signature : String → String → SignedKey → SignatureVerification
  getUnsignedDeviceKey : DeviceKey
  pkSignDevice : DeviceKey → List Nat → DeviceKey
  pkSignCross : CrossSigningKey → List Nat → CrossSigningKey

/-- Embeds hasValidSignatureFrom of CrossSigning.ts: if the signing key has no
usable ed25519 public key the result is NotSigned, otherwise the ed25519
signature check decides. -/
def hasValidSignatureFrom (env : CrossSigningEnv) (key : SignedKey)
    (signingKey : CrossSigningKey) : SignatureVerification :=
  match getKeyEd25519Key signingKey with
  | none => SignatureVerification.NotSigned
  | some pubKey => env.verifyEd25519Signature signingKey.user_id pubKey key

/-- The reduction step of step 9 of getUserTrust in CrossSigning.ts: combine
the lowest verification seen so far with the verification of one more device,
testing first Invalid, then NotSigned, then Valid. -/
def worstVerification (lowest verification : SignatureVerification) : SignatureVerification :=
  if lowest = SignatureVerification.Invalid ∨ verification = SignatureVerification.Invalid then
    SignatureVerification.Invalid
  else if lowest = SignatureVerification.NotSigned ∨ verification = SignatureVerification.NotSigned then
    SignatureVerification.NotSigned
  else if lowest = SignatureVerification.Valid ∨ verification = SignatureVerification.Valid then
    SignatureVerification.Valid
  else
    SignatureVerification.Invalid

/-- Embeds getUserTrust of CrossSigning.ts, as a function of the collaborator
environment, the current own-master-key trust boolean and the subject user
id. -/
def getUserTrust (env : CrossSigningEnv) (isMasterKeyTrusted : Bool)
    (userId : String) : UserTrust :=
  if isMasterKeyTrusted = false then UserTrust.OwnSetupError
  else
    match env.getCrossSigningKeyForUser env.ownUserId KeyUsage.Master true with
    | none => UserTrust.OwnSetupError
    | some ourMSK =>
      match env.getCrossSigningKeyForUser env.ownUserId KeyUsage.UserSigning true with
      | none => UserTrust.OwnSetupError
      | some ourUSK =>
        if hasValidSignatureFrom env (SignedKey.cross ourUSK) ourMSK ≠ SignatureVerification.Valid then
          UserTrust.OwnSetupError
        else
          match env.getCrossSigningKeyForUser userId KeyUsage.Master true with
          | none => UserTrust.UserNotSigned
          | some theirMSK =>
            match hasValidSignatureFrom env (SignedKey.cross theirMSK) ourUSK with
            | SignatureVerification.NotSigned => UserTrust.UserNotSigned
            | SignatureVerification.Invalid => UserTrust.UserSignatureMismatch
            | SignatureVerification.Valid =>
              match env.getCrossSigningKeyForUser userId KeyUsage.SelfSigning true with
              | none => UserTrust.UserSetupError
              | some theirSSK =>
                if hasValidSignatureFrom env (SignedKey.cross theirSSK) theirMSK ≠ SignatureVerification.Valid then
                  UserTrust.UserSetupError
                else
                  let lowestDeviceVerification :=
                    (env.devicesForUsers userId).foldl
                      (fun lowest dk =>
                        worstVerification lowest
                          (hasValidSignatureFrom env (SignedKey.device dk) theirSSK))
                      SignatureVerification.Valid
                  if lowestDeviceVerification ≠ SignatureVerification.Valid then
                    if lowestDeviceVerification = SignatureVerification.NotSigned then
                      UserTrust.UserDeviceNotSigned
                    else
                      UserTrust.UserDeviceSignatureMismatch
                  else
                    UserTrust.Trusted

/-- Aggregate of a list of verdicts following the words of the spec: any
Invalid anywhere dominates; otherwise any NotSigned dominates; otherwise
Valid. Stated from the spec for comparison with the fold performed by
getUserTrust. -/
def worstOfList (l : List SignatureVerification) : SignatureVerification :=
  if SignatureVerification.Invalid ∈ l then SignatureVerification.Invalid
  else if SignatureVerification.NotSigned ∈ l then SignatureVerification.NotSigned
  else SignatureVerification.Valid

lemma worstVerification_valid_right (a : SignatureVerification) :
    worstVerification a SignatureVerification.Valid = a := by
  cases a <;> decide

lemma worstVerification_assoc (a b c : SignatureVerification) :
    worstVerification (worstVerification a b) c = worstVerification a (worstVerification b c) := by
  cases a <;> cases b <;> cases c <;> decide

lemma worstOfList_cons (v : SignatureVerification) (l : List SignatureVerification) :
    worstOfList (v :: l) = worstVerification v (worstOfList l) := by
  cases v <;> simp [worstOfList, worstVerification, List.mem_cons] <;> split <;> simp_all <;> split <;> simp_all

lemma foldl_worstVerification (l : List SignatureVerification) :
    ∀ a : SignatureVerification, l.foldl worstVerification a = worstVerification a (worstOfList l) := by
  induction l with
  | nil => intro a; simpa [worstOfList] using (worstVerification_valid_right a).symm
  | cons v l ih =>
    intro a
    rw [List.foldl_cons, ih (worstVerification a v), worstVerification_assoc, ← worstOfList_cons]

lemma worstVerification_valid_left (a : SignatureVerification) :
    worstVerification SignatureVerification.Valid a = a := by
  cases a <;> decide

/-- C1: once the own-side checks and the subject-side key checks of
getUserTrust have succeeded, the result is determined by the worst
per-device verdict under the precedence Invalid, then NotSigned, then Valid:
worst Invalid gives UserDeviceSignatureMismatch, worst NotSigned gives
UserDeviceNotSigned, worst Valid gives Trusted; in particular an empty device
list gives Trusted. -/
theorem getUserTrust_device_aggregate
    (env : CrossSigningEnv) (userId : String)
    (ourMSK ourUSK theirMSK theirSSK : CrossSigningKey)
    (h1 : env.getCrossSigningKeyForUser env.ownUserId KeyUsage.Master true = some ourMSK)
    (h2 : env.getCrossSigningKeyForUser env.ownUserId KeyUsage.UserSigning true = some ourUSK)
    (h3 : hasValidSignatureFrom env (SignedKey.cross ourUSK) ourMSK = SignatureVerification.Valid)
    (h4 : env.getCrossSigningKeyForUser userId KeyUsage.Master true = some theirMSK)
    (h5 : hasValidSignatureFrom env (SignedKey.cross theirMSK) ourUSK = SignatureVerification.Valid)
    (h6 : env.getCrossSigningKeyForUser userId KeyUsage.SelfSigning true = some theirSSK)
    (h7 : hasValidSignatureFrom env (SignedKey.cross theirSSK) theirMSK = SignatureVerification.Valid) :
    (getUserTrust env true userId =
      match worstOfList ((env.devicesForUsers userId).map
          (fun dk => hasValidSignatureFrom env (SignedKey.device dk) theirSSK)) with
      | SignatureVerification.Invalid => UserTrust.UserDeviceSignatureMismatch
      | SignatureVerification.NotSigned => UserTrust.UserDeviceNotSigned
      | SignatureVerification.Valid => UserTrust.Trusted)
    ∧ (env.devicesForUsers userId = [] → getUserTrust env true userId = UserTrust.Trusted) := by
  have main : getUserTrust env true userId =
      match worstOfList ((env.devicesForUsers userId).map
          (fun dk => hasValidSignatureFrom env (SignedKey.device dk) theirSSK)) with
      | SignatureVerification.Invalid => UserTrust.UserDeviceSignatureMismatch
      | SignatureVerification.NotSigned => UserTrust.UserDeviceNotSigned
      | SignatureVerification.Valid => UserTrust.Trusted := by
    rw [getUserTrust]
    simp only [h1, h2, h3, h4, h5, h6, h7]
    rw [← List.foldl_map (fun dk => hasValidSignatureFrom env (SignedKey.device dk) theirSSK)
        worstVerification]
    rw [foldl_worstVerification, worstVerification_valid_left]
    cases hW : worstOfList ((env.devicesForUsers userId).map
        (fun dk => hasValidSignatureFrom env (SignedKey.device dk) theirSSK)) <;> simp
  refine ⟨main, fun hempty => ?_⟩
  rw [main, hempty]
  simp [worstOfList]

/-- Concrete master key of the own user for the C1 witness environment. -/
def mskA : CrossSigningKey :=
  { user_id := "@alice:hs", usage := ["master"], keys := [("ed25519:ma", "PKAM")], signatures := [] }

/-- Concrete user-signing key of the own user for the C1 witness environment. -/
def uskA : CrossSigningKey :=
  { user_id := "@alice:hs", usage := ["user_signing"], keys := [("ed25519:ua", "PKAU")], signatures := [] }

/-- Concrete master key of the subject for the C1 witness environment. -/
def mskB : CrossSigningKey :=
  { user_id := "@bob:hs", usage := ["master"], keys := [("ed25519:mb", "PKBM")], signatures := [] }

/-- Concrete self-signing key of the subject for the C1 witness environment. -/
def sskB : CrossSigningKey :=
  { user_id := "@bob:hs", usage := ["self_signing"], keys := [("ed25519:sb", "PKBS")], signatures := [] }

/-- Subject device whose signature check reports NotSigned in the C1 witness. -/
def devB1 : DeviceKey :=
  { user_id := "@bob:hs", device_id := "B1", keys := [], signatures := [] }

/-- Subject device whose signature check reports Valid in the C1 witness. -/
def devB2 : DeviceKey :=
  { user_id := "@bob:hs", device_id := "B2", keys := [], signatures := [] }

/-- Concrete collaborator environment for the C1 witness: the whole signature
chain is valid except that device B1 is not signed. -/
def envC1 : CrossSigningEnv :=
  { ownUserId := "@alice:hs"
    deviceId := "A1"
    readSecret := fun _ => none
    deriveMasterPublicKey := fun _ => ""
    getCrossSigningKeyForUser := fun u usage _ =>
      if u = "@alice:hs" then
        match usage with
        | KeyUsage.Master => some mskA
        | KeyUsage.UserSigning => some uskA
        | KeyUsage.SelfSigning => none
      else if u = "@bob:hs" then
        match usage with
        | KeyUsage.Master => some mskB
        | KeyUsage.SelfSigning => some sskB
        | KeyUsage.UserSigning => none
      else none
    deviceForId := fun _ _ => none
    devicesForUsers := fun u => if u = "@bob:hs" then [devB1, devB2] else []
    verifyEd25519Signature := fun _ _ k =>
      match k with
      | SignedKey.device d =>
        if d.device_id = "B1" then SignatureVerification.NotSigned else SignatureVerification.Valid
      | SignedKey.cross _ => SignatureVerification.Valid
    getUnsignedDeviceKey := devB2
    pkSignDevice := fun d _ => d
    pkSignCross := fun k _ => k }

/-- Witness for C1: in the concrete environment the worst device verdict is
NotSigned and the subject is reported UserDeviceNotSigned. -/
theorem getUserTrust_device_aggregate_witness :
    getUserTrust envC1 true "@bob:hs" = UserTrust.UserDeviceNotSigned :=
  ((getUserTrust_device_aggregate envC1 "@bob:hs" mskA uskA mskB sskB
      (by decide) (by decide) (by decide) (by decide) (by decide) (by decide) (by decide)).1).trans
    (by decide)

/-- C2: once the own-side checks of getUserTrust have succeeded, an absent
subject master key yields UserNotSigned; a subject master key that is not
signed by our user-signing key yields UserNotSigned while an invalid signature
yields UserSignatureMismatch; and when the subject master key verifies, an
absent subject self-signing key, or a subject self-signing key whose signature
by their master key is not Valid, yields UserSetupError. -/
theorem getUserTrust_subject_checks
    (env : CrossSigningEnv) (userId : String) (ourMSK ourUSK : CrossSigningKey)
    (h1 : env.getCrossSigningKeyForUser env.ownUserId KeyUsage.Master true = some ourMSK)
    (h2 : env.getCrossSigningKeyForUser env.ownUserId KeyUsage.UserSigning true = some ourUSK)
    (h3 : hasValidSignatureFrom env (SignedKey.cross ourUSK) ourMSK = SignatureVerification.Valid) :
    (env.getCrossSigningKeyForUser userId KeyUsage.Master true = none →
      getUserTrust env true userId = UserTrust.UserNotSigned)
    ∧ (∀ theirMSK, env.getCrossSigningKeyForUser userId KeyUsage.Master true = some theirMSK →
        (hasValidSignatureFrom env (SignedKey.cross theirMSK) ourUSK = SignatureVerification.NotSigned →
          getUserTrust env true userId = UserTrust.UserNotSigned)
        ∧ (hasValidSignatureFrom env (SignedKey.cross theirMSK) ourUSK = SignatureVerification.Invalid →
          getUserTrust env true userId = UserTrust.UserSignatureMismatch)
        ∧ (hasValidSignatureFrom env (SignedKey.cross theirMSK) ourUSK = SignatureVerification.Valid →
            (env.getCrossSigningKeyForUser userId KeyUsage.SelfSigning true = none →
              getUserTrust env true userId = UserTrust.UserSetupError)
            ∧ (∀ theirSSK,
                env.getCrossSigningKeyForUser userId KeyUsage.SelfSigning true = some theirSSK →
                hasValidSignatureFrom env (SignedKey.cross theirSSK) theirMSK ≠ SignatureVerification.Valid →
                getUserTrust env true userId = UserTrust.UserSetupError))) := by
  refine ⟨fun hm => ?_, fun theirMSK hm => ⟨fun hv => ?_, fun hv => ?_, fun hv => ⟨fun hs => ?_, fun theirSSK hs hsv => ?_⟩⟩⟩
  · simp [getUserTrust, h1, h2, h3, hm]
  · simp [getUserTrust, h1, h2, h3, hm, hv]
  · simp [getUserTrust, h1, h2, h3, hm, hv]
  · simp [getUserTrust, h1, h2, h3, hm, hv, hs]
  · simp [getUserTrust, h1, h2, h3, hm, hv, hs, hsv]

/-- Witness for C2: in the concrete environment the third user has published no
master key, so the verdict is UserNotSigned. -/
theorem getUserTrust_subject_checks_witness :
    getUserTrust envC1 true "@carol:hs" = UserTrust.UserNotSigned :=
  (getUserTrust_subject_checks envC1 "@carol:hs" mskA uskA
    (by decide) (by decide) (by decide)).1 (by decide)

/-- Observable side effects of the signing operations: directory fetches that
take the network client, secret reads, signature creation, and the signature
upload request. -/
inductive Effect where
  | fetchDevice (userId deviceId : String)
  | fetchCrossSigningKey (userId : String) (usage : KeyUsage)
  | readSecret (usage : KeyUsage)
  | signed
  | uploadSignatures (userId : String) (keyOrDeviceId : Option String)
deriving DecidableEq, Repr

/-- Embeds the private signDeviceKey of CrossSigning.ts: read the self-signing
seed, sign the device key with it and upload the signature keyed by user id
and device id. -/
def signDeviceKey (env : CrossSigningEnv) (keyToSign : DeviceKey) :
    Option DeviceKey × List Effect :=
  match env.readSecret KeyUsage.SelfSigning with
  | none => (none, [Effect.readSecret KeyUsage.SelfSigning])
  | some signingKey =>
    let signedKey := env.pkSignDevice keyToSign signingKey
    (some signedKey,
      [Effect.readSecret KeyUsage.SelfSigning, Effect.signed,
       Effect.uploadSignatures signedKey.user_id (some signedKey.device_id)])

/-- Embeds signOwnDevice of CrossSigning.ts: gated on the own-master-key trust
boolean, then signs the own unsigned device key. -/
def signOwnDevice (env : CrossSigningEnv) (isMasterKeyTrusted : Bool) :
    Option DeviceKey × List Effect :=
  if isMasterKeyTrusted = false then (none, [])
  else signDeviceKey env env.getUnsignedDeviceKey

/-- Embeds signDevice of CrossSigning.ts: gated on the own-master-key trust
boolean, fetches the device, strips its signatures and signs it. -/
def signDevice (env : CrossSigningEnv) (isMasterKeyTrusted : Bool)
    (deviceId : String) : Option DeviceKey × List Effect :=
  if isMasterKeyTrusted = false then (none, [])
  else
    match env.deviceForId env.ownUserId deviceId with
    | none => (none, [Effect.fetchDevice env.ownUserId deviceId])
    | some keyToSign =>
      let res := signDeviceKey env { keyToSign with signatures := [] }
      (res.1, Effect.fetchDevice env.ownUserId deviceId :: res.2)

/-- Embeds signUser of CrossSigning.ts: gated on the own-master-key trust
boolean, refuses the own user id, fetches the subject master key, reads the
user-signing seed, signs and uploads keyed by user id and ed25519 key id. -/
def signUser (env : CrossSigningEnv) (isMasterKeyTrusted : Bool)
    (userId : String) : Option CrossSigningKey × List Effect :=
  if isMasterKeyTrusted = false then (none, [])
  else if userId = env.ownUserId then (none, [])
  else
    match env.getCrossSigningKeyForUser userId KeyUsage.Master true with
    | none => (none, [Effect.fetchCrossSigningKey userId KeyUsage.Master])
    | some keyToSign =>
      match env.readSecret KeyUsage.UserSigning with
      | none =>
        (none, [Effect.fetchCrossSigningKey userId KeyUsage.Master,
                Effect.readSecret KeyUsage.UserSigning])
      | some signingKey =>
        let signedKey := env.pkSignCross { keyToSign with signatures := [] } signingKey
        (some signedKey,
          [Effect.fetchCrossSigningKey userId KeyUsage.Master,
           Effect.readSecret KeyUsage.UserSigning, Effect.signed,
           Effect.uploadSignatures signedKey.user_id (getKeyEd25519Key signedKey)])

/-- C3: while the own-master-key trust boolean is false, signOwnDevice,
signDevice and signUser return absent and perform no effect at all, in
particular no signing and no network upload. -/
theorem signing_ops_gated_on_trust (env : CrossSigningEnv) :
    signOwnDevice env false = (none, [])
    ∧ (∀ deviceId, signDevice env false deviceId = (none, []))
    ∧ (∀ userId, signUser env false userId = (none, [])) :=
  ⟨rfl, fun _ => rfl, fun _ => rfl⟩

/-- C9: for either value of the trust boolean, signUser on the own user id
returns absent and performs no effect, in particular no key fetch and no
signature upload. -/
theorem signUser_own_user_noop (env : CrossSigningEnv) (trusted : Bool) :
    signUser env trusted env.ownUserId = (none, []) := by
  cases trusted
  · rfl
  · simp [signUser]

/-- Embeds verifyMSKFrom4S of CrossSigning.ts as a function of the environment,
the previous value of the own-master-key trust boolean and the allowNetwork
flag; returns the verdict together with the new value of the trust boolean. -/
def verifyMSKFrom4S (env : CrossSigningEnv) (isMasterKeyTrusted : Bool)
    (allowNetwork : Bool) : MSKVerification × Bool :=
  match env.readSecret KeyUsage.Master with
  | none => (MSKVerification.NoPrivKey, isMasterKeyTrusted)
  | some privateMasterKey =>
    let derivedPublicKey := env.deriveMasterPublicKey privateMasterKey
    match env.getCrossSigningKeyForUser env.ownUserId KeyUsage.Master allowNetwork with
    | none => (MSKVerification.NoPubKey, isMasterKeyTrusted)
    | some publishedMasterKey =>
      let publisedEd25519Key := getKeyEd25519Key publishedMasterKey
      let newTrusted : Bool :=
        match publisedEd25519Key with
        | none => false
        | some k => decide (k = derivedPublicKey)
      if newTrusted = false then (MSKVerification.DerivedPubKeyMismatch, newTrusted)
      else (MSKVerification.Valid, newTrusted)

/-- Embeds load of CrossSigning.ts: run the offline verification pass and
report whether cross-signing is enabled, namely whether the verdict is not
NoPrivKey; returns that report together with the new trust boolean. -/
def load (env : CrossSigningEnv) (isMasterKeyTrusted : Bool) : Bool × Bool :=
  let verification := verifyMSKFrom4S env isMasterKeyTrusted false
  (decide (verification.1 ≠ MSKVerification.NoPrivKey), verification.2)

/-- Dummy own device key used by the concrete environments below. -/
def devA1 : DeviceKey :=
  { user_id := "@alice:hs", device_id := "A1", keys := [], signatures := [] }

/-- Published master key carrying no ed25519 entry, for the C4 input. -/
def mskNoEdKey : CrossSigningKey :=
  { user_id := "@alice:hs", usage := ["master"], keys := [("curve25519:x", "CPK")], signatures := [] }

/-- Concrete environment for C4: the private seed is present and the published
master key is found, but it has no ed25519 entry. -/
def envC4 : CrossSigningEnv :=
  { ownUserId := "@alice:hs"
    deviceId := "A1"
    readSecret := fun u => if u = KeyUsage.Master then some [7] else none
    deriveMasterPublicKey := fun _ => "DERIVED"
    getCrossSigningKeyForUser := fun u usage _ =>
      if u = "@alice:hs" ∧ usage = KeyUsage.Master then some mskNoEdKey else none
    deviceForId := fun _ _ => none
    devicesForUsers := fun _ => []
    verifyEd25519Signature := fun _ _ _ => SignatureVerification.Valid
    getUnsignedDeviceKey := devA1
    pkSignDevice := fun d _ => d
    pkSignCross := fun k _ => k }

/-- Counterexample for C4: with the seed present and a published master key
whose ed25519 entry is missing, the verdict is DerivedPubKeyMismatch, not the
NoPubKey the claim states. -/
theorem verifyMSK_missing_ed_key_not_NoPubKey :
    (verifyMSKFrom4S envC4 false false).1 = MSKVerification.DerivedPubKeyMismatch
    ∧ (verifyMSKFrom4S envC4 false false).1 ≠ MSKVerification.NoPubKey := by
  decide

/-- C4 (amended): when the private seed is present and a published master key
is fetched but its sole ed25519 public key is malformed or missing, the
verdict is DerivedPubKeyMismatch and the trust boolean becomes false. -/
theorem verifyMSK_missing_ed_key_mismatch
    (env : CrossSigningEnv) (prevTrusted allowNetwork : Bool)
    (seed : List Nat) (pk : CrossSigningKey)
    (h1 : env.readSecret KeyUsage.Master = some seed)
    (h2 : env.getCrossSigningKeyForUser env.ownUserId KeyUsage.Master allowNetwork = some pk)
    (h3 : getKeyEd25519Key pk = none) :
    verifyMSKFrom4S env prevTrusted allowNetwork
      = (MSKVerification.DerivedPubKeyMismatch, false) := by
  simp [verifyMSKFrom4S, h1, h2, h3]

/-- Witness for the amended C4 at the concrete environment. -/
theorem verifyMSK_missing_ed_key_mismatch_witness :
    verifyMSKFrom4S envC4 false false = (MSKVerification.DerivedPubKeyMismatch, false) :=
  verifyMSK_missing_ed_key_mismatch envC4 false false [7] mskNoEdKey
    (by decide) (by decide) (by decide)

lemma verifyMSK_trusted_only_if_valid (env : CrossSigningEnv) (n : Bool) :
    (verifyMSKFrom4S env false n).2 = true →
    (verifyMSKFrom4S env false n).1 = MSKVerification.Valid := by
  cases hs : env.readSecret KeyUsage.Master with
  | none => simp [verifyMSKFrom4S, hs]
  | some seed =>
    cases hp : env.getCrossSigningKeyForUser env.ownUserId KeyUsage.Master n with
    | none => simp [verifyMSKFrom4S, hs, hp]
    | some pk =>
      simp only [verifyMSKFrom4S, hs, hp]
      split <;> simp_all

/-- C10: load reports cross-signing as enabled exactly when a private master
seed is readable; in particular when the offline verification ends in
NoPubKey or DerivedPubKeyMismatch, load still returns true while the trust
boolean stays false. -/
theorem load_reports_enabled (env : CrossSigningEnv) :
    ((load env false).1 = true ↔ (env.readSecret KeyUsage.Master).isSome = true)
    ∧ ((verifyMSKFrom4S env false false).1 = MSKVerification.NoPubKey ∨
        (verifyMSKFrom4S env false false).1 = MSKVerification.DerivedPubKeyMismatch →
        load env false = (true, false)) := by
  constructor
  · cases hs : env.readSecret KeyUsage.Master with
    | none => simp [load, verifyMSKFrom4S, hs]
    | some seed =>
      simp only [Option.isSome_some, iff_true]
      cases hp : env.getCrossSigningKeyForUser env.ownUserId KeyUsage.Master false with
      | none => simp [load, verifyMSKFrom4S, hs, hp]
      | some pk =>
        simp only [load, verifyMSKFrom4S, hs, hp]
        split <;> simp
  · intro h
    have hne : (verifyMSKFrom4S env false false).1 ≠ MSKVerification.NoPrivKey := by
      rcases h with h | h <;> simp [h]
    have h2 : (verifyMSKFrom4S env false false).2 = false := by
      by_contra hc
      have hval := verifyMSK_trusted_only_if_valid env false
        (by revert hc; cases (verifyMSKFrom4S env false false).2 <;> simp)
      rcases h with h | h <;> simp [h] at hval
    simp [load, hne, h2]

/-- Concrete environment for C10: the seed is readable but no published master
key exists, so the offline verification ends in NoPubKey. -/
def envC10 : CrossSigningEnv :=
  { ownUserId := "@alice:hs"
    deviceId := "A1"
    readSecret := fun u => if u = KeyUsage.Master then some [9] else none
    deriveMasterPublicKey := fun _ => "DERIVED"
    getCrossSigningKeyForUser := fun _ _ _ => none
    deviceForId := fun _ _ => none
    devicesForUsers := fun _ => []
    verifyEd25519Signature := fun _ _ _ => SignatureVerification.Valid
    getUnsignedDeviceKey := devA1
    pkSignDevice := fun d _ => d
    pkSignCross := fun k _ => k }

/-- Witness for C10 at the concrete environment. -/
theorem load_reports_enabled_witness :
    load envC10 false = (true, false) :=
  (load_reports_enabled envC10).2 (Or.inl (by decide))

/-- Modelled from the spec: the designated secret key marker
SESSION_E2EE_KEY_PREFIX, imported by SessionStore.ts from e2ee/common.js which
is not under src; the spec identifies mirrored entries by this key marker. -/
def SESSION_E2EE_KEY_PREFIX : String := "e2ee:"

/-- Modelled from the spec: typedJSON stringify (utils/typedJSON is not under
src); serialization is the identity on the modelled string value domain. -/
def stringify (v : String) : String := v

/-- Modelled from the spec: typedJSON parse, the inverse of stringify on the
modelled string value domain. -/
def parse (s : String) : String := s

/-- State of the SessionStore of SessionStore.ts: the primary IndexedDB object
store and the secondary DOM storage medium, both as association lists. -/
structure SessionStoreState where
  primary : List (String × String)
  localStorage : List (String × String)
deriving DecidableEq, Repr

/-- Embeds the private writeKeyToLocalStorage of SessionStore.ts: mirror the
value into the secondary medium under the derived key
databaseName.session.key. -/
def writeKeyToLocalStorage (databaseName : String) (st : SessionStoreState)
    (key value : String) : SessionStoreState :=
  let lsKey := databaseName ++ ".session." ++ key
  let lsValue := stringify value
  { st with localStorage := assocPut st.localStorage lsKey lsValue }

/-- Embeds set of SessionStore.ts: mirror secret-marked keys, then upsert in
the primary store. -/
def SessionStore.set (databaseName : String) (st : SessionStoreState)
    (key value : String) : SessionStoreState :=
  let st1 :=
    if jsStartsWith key SESSION_E2EE_KEY_PREFIX then
      writeKeyToLocalStorage databaseName st key value
    else st
  { st1 with primary := assocPut st1.primary key value }

/-- Embeds remove of SessionStore.ts: for secret-marked keys it removes the
secondary-medium entry under databaseName concatenated directly with the key,
then deletes from the primary store. -/
def SessionStore.remove (databaseName : String) (st : SessionStoreState)
    (key : String) : SessionStoreState :=
  let st1 :=
    if jsStartsWith key SESSION_E2EE_KEY_PREFIX then
      { st with localStorage := assocRemove st.localStorage (databaseName ++ key) }
    else st
  { st1 with primary := assocRemove st1.primary key }

/-- One iteration of the restore loop of
tryRestoreE2EEIdentityFromLocalStorage in SessionStore.ts: for a
secondary-medium entry whose key matches the derived secret pattern, parse the
value, recover the primary key, and insert it only when the primary store does
not already hold that key, recording that a restoration occurred. -/
def restoreStep (lsPfx pfxFull : String) (acc : Bool × List (String × String))
    (entry : String × String) : Bool × List (String × String) :=
  if jsStartsWith entry.1 pfxFull = true then
    match assocGet acc.2 (jsSubstrFrom entry.1 (jsLength lsPfx)) with
    | some _ => acc
    | none => (true, assocPut acc.2 (jsSubstrFrom entry.1 (jsLength lsPfx)) (parse entry.2))
  else acc

/-- Embeds tryRestoreE2EEIdentityFromLocalStorage of SessionStore.ts: walk the
whole secondary medium, restore matching entries absent from the primary
store, and report whether at least one entry was restored. -/
def tryRestoreE2EEIdentityFromLocalStorage (databaseName : String)
    (st : SessionStoreState) : Bool × SessionStoreState :=
  let lsPfx := databaseName ++ ".session."
  let pfxFull := lsPfx ++ SESSION_E2EE_KEY_PREFIX
  let res := st.localStorage.foldl (restoreStep lsPfx pfxFull) (false, st.primary)
  (res.1, { st with primary := res.2 })

lemma assocGet_put_ne {β : Type} (l : List (String × β)) (K k : String) (v : β)
    (h : k ≠ K) : assocGet (assocPut l K v) k = assocGet l k := by
  induction l with
  | nil => simp [assocPut, assocGet, Ne.symm h]
  | cons p rest ih =>
    obtain ⟨k2, v2⟩ := p
    by_cases h2 : k2 = K
    · subst h2
      simp [assocPut, assocGet, Ne.symm h]
    · by_cases h3 : k2 = k
      · simp [assocPut, assocGet, h2, h3, h]
      · simp [assocPut, assocGet, h2, h3, ih]

lemma assocGet_put_self {β : Type} (l : List (String × β)) (k : String) (v : β) :
    assocGet (assocPut l k v) k = some v := by
  induction l with
  | nil => simp [assocPut, assocGet]
  | cons p rest ih =>
    obtain ⟨k2, v2⟩ := p
    by_cases h2 : k2 = k
    · subst h2
      simp [assocPut, assocGet]
    · simp [assocPut, assocGet, h2, ih]


lemma restore_fold_preserves (ls : List (String × String)) (lsPfx pfxFull : String) :
    ∀ acc : Bool × List (String × String), ∀ k v, assocGet acc.2 k = some v →
      assocGet (ls.foldl (restoreStep lsPfx pfxFull) acc).2 k = some v := by
  induction ls with
  | nil => intro acc k v h; simpa using h
  | cons e rest ih =>
    intro acc k v h
    rw [List.foldl_cons]
    apply ih
    simp only [restoreStep]
    split
    · cases hK : assocGet acc.2 (jsSubstrFrom e.1 (jsLength lsPfx)) with
      | some w => simpa [hK] using h
      | none =>
        have hne : k ≠ jsSubstrFrom e.1 (jsLength lsPfx) := by
          intro he
          rw [he, hK] at h
          exact Option.noConfusion h
        simpa [hK, assocGet_put_ne _ _ _ _ hne] using h
    · simpa using h

lemma restoreStep_success_mono (lsPfx pfxFull : String)
    (acc : Bool × List (String × String)) (e : String × String) (h : acc.1 = true) :
    (restoreStep lsPfx pfxFull acc e).1 = true := by
  simp only [restoreStep]
  split
  · split <;> simp [h]
  · exact h

lemma restore_fold_success_mono (ls : List (String × String)) (lsPfx pfxFull : String) :
    ∀ acc : Bool × List (String × String), acc.1 = true →
      (ls.foldl (restoreStep lsPfx pfxFull) acc).1 = true := by
  induction ls with
  | nil => intro acc h; simpa using h
  | cons e rest ih =>
    intro acc h
    rw [List.foldl_cons]
    exact ih _ (restoreStep_success_mono lsPfx pfxFull acc e h)

lemma restoreStep_false_id (lsPfx pfxFull : String)
    (acc : Bool × List (String × String)) (e : String × String)
    (h : (restoreStep lsPfx pfxFull acc e).1 = false) :
    restoreStep lsPfx pfxFull acc e = acc := by
  simp only [restoreStep] at h ⊢
  split at h
  · rename_i hsw
    split at h
    · rename_i w hK
      simp [hsw, hK]
    · simp at h
  · rename_i hsw
    simp [hsw]

lemma restore_fold_no_success_id (ls : List (String × String)) (lsPfx pfxFull : String) :
    ∀ acc : Bool × List (String × String),
      (ls.foldl (restoreStep lsPfx pfxFull) acc).1 = false →
      ls.foldl (restoreStep lsPfx pfxFull) acc = acc := by
  induction ls with
  | nil => intro acc _; simp
  | cons e rest ih =>
    intro acc h
    rw [List.foldl_cons] at h ⊢
    have hsf : (restoreStep lsPfx pfxFull acc e).1 = false := by
      by_contra hc
      have ht : (restoreStep lsPfx pfxFull acc e).1 = true := by
        revert hc; cases (restoreStep lsPfx pfxFull acc e).1 <;> simp
      rw [restore_fold_success_mono rest lsPfx pfxFull _ ht] at h
      exact Bool.noConfusion h
    rw [ih _ h]
    exact restoreStep_false_id lsPfx pfxFull acc e hsf

lemma restoreStep_true_shape (lsPfx pfxFull : String)
    (P : List (String × String)) (e : String × String)
    (h : (restoreStep lsPfx pfxFull (false, P) e).1 = true) :
    assocGet P (jsSubstrFrom e.1 (jsLength lsPfx)) = none ∧
    restoreStep lsPfx pfxFull (false, P) e
      = (true, assocPut P (jsSubstrFrom e.1 (jsLength lsPfx)) (parse e.2)) := by
  simp only [restoreStep] at h ⊢
  split at h
  · rename_i hsw
    split at h
    · simp at h
    · rename_i hK
      refine ⟨hK, ?_⟩
      simp only [hsw, if_true, hK]
  · simp at h

lemma restore_fold_success_implies_insert (ls : List (String × String))
    (lsPfx pfxFull : String) :
    ∀ P0 : List (String × String),
      (ls.foldl (restoreStep lsPfx pfxFull) (false, P0)).1 = true →
      ∃ k, assocGet P0 k = none
        ∧ assocGet (ls.foldl (restoreStep lsPfx pfxFull) (false, P0)).2 k ≠ none := by
  induction ls with
  | nil => intro P0 h; simp at h
  | cons e rest ih =>
    intro P0 h
    rw [List.foldl_cons] at h ⊢
    by_cases hs : (restoreStep lsPfx pfxFull (false, P0) e).1 = true
    · obtain ⟨hnone, hstep⟩ := restoreStep_true_shape lsPfx pfxFull P0 e hs
      rw [hstep]
      refine ⟨jsSubstrFrom e.1 (jsLength lsPfx), hnone, ?_⟩
      have hself := assocGet_put_self P0 (jsSubstrFrom e.1 (jsLength lsPfx)) (parse e.2)
      have hkeep := restore_fold_preserves rest lsPfx pfxFull
        (true, assocPut P0 (jsSubstrFrom e.1 (jsLength lsPfx)) (parse e.2))
        (jsSubstrFrom e.1 (jsLength lsPfx)) (parse e.2) hself
      simp [hkeep]
    · have hsf : (restoreStep lsPfx pfxFull (false, P0) e).1 = false := by
        revert hs; cases (restoreStep lsPfx pfxFull (false, P0) e).1 <;> simp
      rw [restoreStep_false_id lsPfx pfxFull (false, P0) e hsf] at h ⊢
      exact ih P0 h

/-- C5: the restore procedure never changes the value of a key already present
in the primary store, and it returns true exactly when it inserted at least
one key that was absent from the primary store. -/
theorem tryRestore_additive (databaseName : String) (st : SessionStoreState) :
    (∀ k v, assocGet st.primary k = some v →
        assocGet (tryRestoreE2EEIdentityFromLocalStorage databaseName st).2.primary k = some v)
    ∧ ((tryRestoreE2EEIdentityFromLocalStorage databaseName st).1 = true ↔
        ∃ k, assocGet st.primary k = none
          ∧ assocGet (tryRestoreE2EEIdentityFromLocalStorage databaseName st).2.primary k ≠ none) := by
  simp only [tryRestoreE2EEIdentityFromLocalStorage]
  constructor
  · intro k v h
    exact restore_fold_preserves _ _ _ (false, st.primary) k v h
  · constructor
    · intro h
      exact restore_fold_success_implies_insert _ _ _ st.primary h
    · rintro ⟨k, hnone, hsome⟩
      by_contra hc
      have hfalse :
          (st.localStorage.foldl
            (restoreStep (databaseName ++ ".session.")
              (databaseName ++ ".session." ++ SESSION_E2EE_KEY_PREFIX))
            (false, st.primary)).1 = false := by
        revert hc
        cases (st.localStorage.foldl
            (restoreStep (databaseName ++ ".session.")
              (databaseName ++ ".session." ++ SESSION_E2EE_KEY_PREFIX))
            (false, st.primary)).1 <;> simp
      rw [restore_fold_no_success_id _ _ _ (false, st.primary) hfalse] at hsome
      exact hsome hnone

/-- Concrete store for the C5 witness: the primary store already holds one
secret key with an old value; the backup holds a newer value for it and one
additional secret entry. -/
def stC5 : SessionStoreState :=
  { primary := [("e2ee:k", "old")]
    localStorage := [("hydrogen.session.e2ee:k", "new"), ("hydrogen.session.e2ee:j", "vj")] }

/-- Witness for C5: restoring over the concrete store keeps the old value of
the pre-seeded key and reports that a restoration occurred. -/
theorem tryRestore_additive_witness :
    assocGet (tryRestoreE2EEIdentityFromLocalStorage "hydrogen" stC5).2.primary "e2ee:k"
      = some "old"
    ∧ (tryRestoreE2EEIdentityFromLocalStorage "hydrogen" stC5).1 = true :=
  ⟨(tryRestore_additive "hydrogen" stC5).1 "e2ee:k" "old" (by decide),
   (tryRestore_additive "hydrogen" stC5).2.mpr ⟨"e2ee:j", by decide, by decide⟩⟩

/-- Empty store for the C6 failing input. -/
def stC6 : SessionStoreState := { primary := [], localStorage := [] }

/-- The store after set of a secret-marked key followed by remove of the same
key, the C6 failing input evaluated on the embedded code. -/
def stC6After : SessionStoreState :=
  SessionStore.remove "hydrogen"
    (SessionStore.set "hydrogen" stC6 "e2ee:identity" "v") "e2ee:identity"

/-- C6 failing input evaluated: after set of key e2ee:identity followed by
remove of the same key, the secondary medium still holds the mirrored entry
under the derived key hydrogen.session.e2ee:identity, because remove deletes
under the underived key instead; the primary entry is gone. -/
theorem remove_mirror_key_mismatch :
    assocGet stC6After.localStorage "hydrogen.session.e2ee:identity" = some "v"
    ∧ assocGet stC6After.primary "e2ee:identity" = none := by
  decide

/-- Modelled from the spec: the inbound protocol message type tags (the
VerificationEventType values of SAS/channel/types, not under src); Request and
Start are the types that begin a session, Other stands for every other type. -/
inductive VerificationEventType where
  | Request
  | Start
  | Other
deriving DecidableEq, Repr

/-- Inbound device-to-device protocol message as seen by the trigger: its type,
its sender and the transaction id of its content. -/
structure Message where
  type : VerificationEventType
  sender : String
  transaction_id : String
deriving DecidableEq, Repr

/-- Interactive verification session as far as the trigger observes it: the id
of its channel, whether it is finished, the bound other user and the starting
message. -/
structure SASVerification where
  channelId : String
  finished : Bool
  otherUserId : String
  startingMessage : Message
deriving DecidableEq, Repr

/-- Modelled from the spec: constructing a SASVerification over a
ToDeviceChannel bound to the sender and the starting message (the channel
implementation is not under src); the channel id is the transaction id of the
starting message, the session starts unfinished. -/
def newSession (userId : String) (startingMessage : Message) : SASVerification :=
  { channelId := startingMessage.transaction_id
    finished := false
    otherUserId := userId
    startingMessage := startingMessage }

/-- Embeds startVerification of CrossSigning.ts on the session state: keep the
current session when one is in progress and not finished, otherwise replace
the state with a fresh session bound to the user and starting message. -/
def startVerification (st : Option SASVerification) (userId : String)
    (startingMessage : Message) : Option SASVerification :=
  match st with
  | some sas => if sas.finished = false then st else some (newSession userId startingMessage)
  | none => some (newSession userId startingMessage)

/-- Embeds the message handler installed by the CrossSigning constructor: a
message is dropped when a session exists that either is not finished or whose
channel id equals and thus claims the transaction id of the message; otherwise
a request or start message begins a new session. -/
def handleMessage (st : Option SASVerification) (msg : Message) : Option SASVerification :=
  match st with
  | some sas =>
    if sas.finished = false ∨ sas.channelId = msg.transaction_id then st
    else if msg.type = VerificationEventType.Request ∨ msg.type = VerificationEventType.Start then
      startVerification st msg.sender msg
    else st
  | none =>
    if msg.type = VerificationEventType.Request ∨ msg.type = VerificationEventType.Start then
      startVerification st msg.sender msg
    else st

/-- Finished session bound to the first user for the C7 counterexample. -/
def oldSasC7 : SASVerification :=
  { channelId := "t1"
    finished := true
    otherUserId := "@alice:hs"
    startingMessage :=
      { type := VerificationEventType.Request, sender := "@alice:hs", transaction_id := "t1" } }

/-- Start message from a second user reusing the finished session transaction
id, for the C7 counterexample. -/
def msgC7 : Message :=
  { type := VerificationEventType.Start, sender := "@bob:hs", transaction_id := "t1" }

/-- Counterexample for C7: the current session is finished and the inbound
start message carries the same transaction id, so the claim as stated demands
a new session bound to the sender; the code ignores the message and keeps the
old session, which is bound to a different user. -/
theorem handleMessage_matching_txn_ignored :
    handleMessage (some oldSasC7) msgC7 = some oldSasC7
    ∧ oldSasC7.otherUserId ≠ msgC7.sender
    ∧ some oldSasC7 ≠ some (newSession msgC7.sender msgC7) := by
  refine ⟨by decide, by decide, by decide⟩

/-- C7 (amended): a message is ignored whenever a session exists that either
is not finished or whose channel id equals the transaction id of the message;
otherwise a request or start message begins a new session bound to the sender
and the message, replacing any previous finished session; and any session the
handler leaves behind that differs from the previous state is a fresh
unfinished one, so at most one non-finished session exists at a time. -/
theorem handleMessage_admission (st : Option SASVerification) (msg : Message) :
    (∀ sas, st = some sas →
      (sas.finished = false ∨ sas.channelId = msg.transaction_id) →
      handleMessage st msg = st)
    ∧ ((st = none ∨ ∃ sas, st = some sas ∧ sas.finished = true ∧ sas.channelId ≠ msg.transaction_id) →
        (msg.type = VerificationEventType.Request ∨ msg.type = VerificationEventType.Start) →
        handleMessage st msg = some (newSession msg.sender msg))
    ∧ (∀ sas, handleMessage st msg = some sas → handleMessage st msg ≠ st →
        sas = newSession msg.sender msg ∧ sas.finished = false) := by
  refine ⟨fun sas hst hign => ?_, fun hfree hty => ?_, fun sas hres hne => ?_⟩
  · subst hst
    simp [handleMessage, hign]
  · rcases hfree with hst | ⟨sas, hst, hfin, hch⟩
    · subst hst
      simp [handleMessage, hty, startVerification]
    · subst hst
      have hnot : ¬(sas.finished = false ∨ sas.channelId = msg.transaction_id) := by
        simp [hfin, hch]
      simp only [handleMessage, if_neg hnot, if_pos hty, startVerification]
      rw [if_neg (by simp [hfin])]
  · cases st with
    | none =>
      simp only [handleMessage] at hres hne
      by_cases hty : msg.type = VerificationEventType.Request ∨ msg.type = VerificationEventType.Start
      · simp only [hty, if_true, startVerification] at hres
        cases hres
        exact ⟨rfl, rfl⟩
      · simp [hty] at hres
    | some sas0 =>
      simp only [handleMessage] at hres hne
      by_cases hign : sas0.finished = false ∨ sas0.channelId = msg.transaction_id
      · simp only [hign, if_true] at hres hne
        exact absurd rfl hne
      · simp only [hign, if_false] at hres hne
        by_cases hty : msg.type = VerificationEventType.Request ∨ msg.type = VerificationEventType.Start
        · simp only [hty, if_true, startVerification] at hres
          have hfin : ¬sas0.finished = false := fun hc => hign (Or.inl hc)
          simp only [if_neg hfin] at hres
          cases hres
          exact ⟨rfl, rfl⟩
        · simp only [hty, if_false] at hres hne
          exact absurd rfl hne

/-- Witness for the amended C7: with no session in progress, a request message
begins a session bound to its sender. -/
theorem handleMessage_admission_witness :
    handleMessage none
      { type := VerificationEventType.Request, sender := "@carol:hs", transaction_id := "t9" }
      = some (newSession "@carol:hs"
          { type := VerificationEventType.Request, sender := "@carol:hs", transaction_id := "t9" }) :=
  (handleMessage_admission none
      { type := VerificationEventType.Request, sender := "@carol:hs", transaction_id := "t9" }).2.1
    (Or.inl rfl) (Or.inl rfl)
